/-
Verification of the order-and-payment reconciliation workflow of a small
e-commerce storefront (Server Actions over a Supabase store, Toss payment
gateway).  The definitions below are a shallow embedding of the TypeScript
source in `src/actions/order.ts` (the concatenation of the order, payment
and cart action modules) plus the SQL schema.

Modelling conventions:
- UUID identifiers are modelled as `Nat`; the store carries a `nextId`
  counter standing for fresh-id generation.
- Monetary values (DECIMAL columns, JS numbers) are modelled as `ℚ`.
- Integer columns (`quantity`, `stock_quantity`) are modelled as `Int`.
- Database reads are pure functions of the store; the success of each
  database *write* (insert / update) is injected as an explicit boolean
  parameter, mirroring failure injection at each write site of the source.
  The source discards the result of its compensating deletes, and deletes
  are modelled as always applying.
- The Toss gateway response is injected as the `status` string the source
  inspects (`paymentResult.status`); outcomes carry the number of gateway
  invocations performed.
- Error returns of the source (Korean message strings) are modelled by an
  inductive with one constructor per distinct return site, carrying the
  data interpolated into the message where a claim depends on it.
-/
import Mathlib

namespace ShoppingMall

/-- Monetary amounts: `DECIMAL(10,2)` columns and JS numbers, modelled as
exact rationals. -/
abbrev Money := ℚ

/-- A row of `products` (SQL schema §1): id, name, price, stock, active flag.
`description`/`category`/timestamps are never consulted by the workflow and
are omitted. -/
structure Product where
  id : Nat
  name : String
  price : Money
  stock_quantity : Int
  is_active : Bool
  deriving DecidableEq

/-- A row of `cart_items` (SQL schema §2). -/
structure CartItemRow where
  id : Nat
  clerk_id : String
  product_id : Nat
  quantity : Int
  deriving DecidableEq

/-- Shipping-address input fields as accepted by both order flows
(`shippingAddressSchema` / `confirmPaymentSchema.shippingAddress`). -/
structure ShippingAddressInput where
  customerName : String
  address : String
  postalCode : String
  addressDetail : Option String
  phoneNumber : String
  deriving DecidableEq

/-- The JSONB snapshot stored in `orders.shipping_address`.  The pre-payment
flow omits `customerName` from the snapshot; the payment flow always stores
one — hence the `Option`. -/
structure ShippingJson where
  customerName : Option String
  address : String
  postalCode : String
  addressDetail : Option String
  phoneNumber : String
  deriving DecidableEq

/-- A row of `orders` (SQL schema §3); timestamps omitted. -/
structure OrderRow where
  id : Nat
  clerk_id : String
  total_amount : Money
  status : String
  shipping_address : Option ShippingJson
  order_note : Option String
  deriving DecidableEq

/-- A row of `order_items` (SQL schema §4); row id and timestamp omitted. -/
structure OrderItemRow where
  order_id : Nat
  product_id : Nat
  product_name : String
  quantity : Int
  price : Money
  deriving DecidableEq

/-- The local database: the four tables plus a fresh-id counter standing
for UUID generation. -/
structure Store where
  products : List Product
  cart_items : List CartItemRow
  orders : List OrderRow
  order_items : List OrderItemRow
  nextId : Nat
  deriving DecidableEq

/-- Point lookup of a product by id (`.from("products").select(...).eq("id", pid).single()`). -/
def lookupProduct (st : Store) (pid : Nat) : Option Product :=
  st.products.find? (fun p => p.id == pid)

/-- The cart item shape returned by `getCartItems`: the cart row joined with
its product snapshot (source type `CartItem`). -/
structure CartItem where
  id : Nat
  clerk_id : String
  product_id : Nat
  quantity : Int
  products : Product
  deriving DecidableEq

/-- Result type of `getCartItems` (source `GetCartItemsResult`).  The error
branch corresponds to a failed database read, which the pure store model
never produces; it is kept so callers check it as the source does. -/
inductive GetCartItemsResult where
  | ok (data : List CartItem) (totalAmount : Money)
  | err
  deriving DecidableEq

/-- The accumulation loop of `getCartItems` step 4: for each cart row whose
joined product exists and is active, push the joined item and add
`price * quantity` to the running total.  Rows with a missing or inactive
product are skipped (and excluded from the total). -/
def collectCart (st : Store) : List CartItemRow → List CartItem × Money
  | [] => ([], 0)
  | r :: rs =>
    match lookupProduct st r.product_id with
    | none => collectCart st rs
    | some p =>
      if p.is_active then
        (⟨r.id, r.clerk_id, r.product_id, r.quantity, p⟩ :: (collectCart st rs).1,
         p.price * (r.quantity : Money) + (collectCart st rs).2)
      else
        collectCart st rs

/-- `getCartItems` (cart action module): authenticate, read the user's cart
rows joined with products, and return the valid items with their total.
The source's `created_at` descending ordering is abstracted to store order. -/
def getCartItems (st : Store) (userId : Option String) : GetCartItemsResult :=
  match userId with
  | none => .err
  | some uid =>
    let rows := st.cart_items.filter (fun r => r.clerk_id == uid)
    let res := collectCart st rows
    .ok res.1 res.2

/-! ### Input schemas (`lib/schemas/order.ts`, `confirmPaymentSchema`) -/

/-- Consume exactly `n` digit characters (`\d{n}` of the source regexes). -/
def consumeDigits : Nat → List Char → Option (List Char)
  | 0, cs => some cs
  | _ + 1, [] => none
  | n + 1, c :: cs => if c.isDigit then consumeDigits n cs else none

/-- Consume a mandatory dash when `b` is true (a chosen expansion of the
source regex's `-?`). -/
def consumeDash (b : Bool) : List Char → Option (List Char)
  | cs => if b then (match cs with | '-' :: t => some t | _ => none) else some cs

/-- One expansion choice of `^0\d{a}-?\d{b}-?\d{4}$`. -/
def phoneChoice (a b : Nat) (d1 d2 : Bool) (cs : List Char) : Bool :=
  (do
    let cs ← match cs with | '0' :: t => some t | _ => none
    let cs ← consumeDigits a cs
    let cs ← consumeDash d1 cs
    let cs ← consumeDigits b cs
    let cs ← consumeDash d2 cs
    let cs ← consumeDigits 4 cs
    if cs.isEmpty then some () else none).isSome

/-- `phoneNumberRegex = /^0\d{1,3}-?\d{3,4}-?\d{4}$/`: the string matches iff
some expansion of the bounded repetitions and optional dashes matches. -/
def phoneNumberMatches (s : String) : Bool :=
  [1, 2, 3].any fun a => [3, 4].any fun b =>
    [true, false].any fun d1 => [true, false].any fun d2 =>
      phoneChoice a b d1 d2 s.toList

/-- `postalCodeRegex = /^\d{5}$/`. -/
def postalCodeMatches (s : String) : Bool :=
  s.length == 5 && s.toList.all Char.isDigit

/-- The dash-stripping `.replace` transform applied by the schema to the
postal code and phone number. -/
def stripDashes (s : String) : String :=
  String.mk (s.toList.filter fun c => c != '-')

/-- The `"" → undefined` transform applied to optional text fields. -/
def emptyToNone : Option String → Option String
  | some "" => none
  | v => v

/-- `CreateOrderInput`: the argument of `createOrder` before schema
validation. -/
structure CreateOrderInput where
  shippingAddress : ShippingAddressInput
  orderNote : Option String
  deriving DecidableEq

/-- `createOrderSchema.safeParse`: validates every field and applies the
schema transforms, returning the validated shipping fields and note
(`none` on any validation failure). -/
def createOrderSchemaParse (input : CreateOrderInput) :
    Option (ShippingAddressInput × Option String) :=
  let a := input.shippingAddress
  if 2 ≤ a.customerName.length && a.customerName.length ≤ 50
      && 5 ≤ a.address.length && a.address.length ≤ 200
      && postalCodeMatches a.postalCode
      && (match a.addressDetail with | none => true | some d => d.length ≤ 200)
      && phoneNumberMatches a.phoneNumber
      && (match input.orderNote with | none => true | some n => n.length ≤ 500) then
    some ({ customerName := a.customerName,
            address := a.address,
            postalCode := stripDashes a.postalCode,
            addressDetail := emptyToNone a.addressDetail,
            phoneNumber := stripDashes a.phoneNumber },
          emptyToNone input.orderNote)
  else
    none

/-- `confirmPaymentSchema.safeParse` of the payment module: non-empty
payment key and (client) order id, positive amount, and, when a shipping
address is supplied, non-empty mandatory fields. -/
def confirmPaymentSchemaOk (paymentKey orderId : String) (amount : Money)
    (shippingAddress : Option ShippingAddressInput) : Bool :=
  1 ≤ paymentKey.length && 1 ≤ orderId.length && decide (0 < amount)
    && (match shippingAddress with
        | none => true
        | some a =>
          1 ≤ a.customerName.length && 1 ≤ a.address.length
            && 1 ≤ a.postalCode.length && 1 ≤ a.phoneNumber.length)

/-! ### `createOrder` (order action module) -/

/-- The distinct failure return sites of `createOrder`; each constructor
corresponds to one Korean error message of the source, carrying the data
the message interpolates where a claim depends on it. -/
inductive OrderError where
  | notAuthenticated
  | invalidInput
  | cartLoadFailed
  | emptyCart
  | inactiveProduct (name : String)
  | insufficientStock (name : String) (stock requested : Int)
  | outOfStock (name : String)
  | amountMismatch
  | orderInsertFailed
  | orderItemsInsertFailed
  deriving DecidableEq

/-- One entry of the `orderItems` array built by `createOrder` step 5. -/
structure OrderItemSpec where
  product_id : Nat
  product_name : String
  quantity : Int
  price : Money
  deriving DecidableEq

/-- `createOrder` step 5: re-check each cart line in order (active flag,
then `quantity > stock`, then `stock === 0`), short-circuiting with the
first failure, and accumulate the order-line snapshots and the recomputed
total. -/
def validateCartItems : List CartItem → Except OrderError (List OrderItemSpec × Money)
  | [] => .ok ([], 0)
  | item :: rest =>
    let product := item.products
    if !product.is_active then
      .error (.inactiveProduct product.name)
    else if item.quantity > product.stock_quantity then
      .error (.insufficientStock product.name product.stock_quantity item.quantity)
    else if product.stock_quantity == 0 then
      .error (.outOfStock product.name)
    else
      match validateCartItems rest with
      | .error e => .error e
      | .ok (specs, total) =>
        .ok (⟨item.product_id, product.name, item.quantity, product.price⟩ :: specs,
             product.price * (item.quantity : Money) + total)

/-- Outcome of `createOrder`: the returned result together with the new
store state. -/
structure CreateOrderOutcome where
  result : Except OrderError (Nat × Money)
  store : Store

/-- `createOrder`: authenticate, schema-validate, load the cart, re-check
stock/price and recompute the total, compare it to the cart total with
epsilon `0.01`, insert the `orders` row (status `pending`), insert the
`order_items` rows, deleting the order row again if that insert fails.
`orderInsertOk` / `orderItemsInsertOk` inject the success of the two
database inserts. -/
def createOrder (st : Store) (userId : Option String) (input : CreateOrderInput)
    (orderInsertOk orderItemsInsertOk : Bool) : CreateOrderOutcome :=
  match userId with
  | none => ⟨.error .notAuthenticated, st⟩
  | some uid =>
    match createOrderSchemaParse input with
    | none => ⟨.error .invalidInput, st⟩
    | some (addr, note) =>
      match getCartItems st (some uid) with
      | .err => ⟨.error .cartLoadFailed, st⟩
      | .ok cartItems cartTotalAmount =>
        if cartItems.isEmpty then
          ⟨.error .emptyCart, st⟩
        else
          match validateCartItems cartItems with
          | .error e => ⟨.error e, st⟩
          | .ok (orderItems, calculatedTotalAmount) =>
            if |calculatedTotalAmount - cartTotalAmount| > 1/100 then
              ⟨.error .amountMismatch, st⟩
            else if !orderInsertOk then
              ⟨.error .orderInsertFailed, st⟩
            else
              let oid := st.nextId
              let newOrder : OrderRow :=
                { id := oid, clerk_id := uid,
                  total_amount := calculatedTotalAmount, status := "pending",
                  shipping_address := some
                    { customerName := none, address := addr.address,
                      postalCode := addr.postalCode,
                      addressDetail := addr.addressDetail,
                      phoneNumber := addr.phoneNumber },
                  order_note := note }
              let st1 := { st with orders := st.orders ++ [newOrder],
                                   nextId := st.nextId + 1 }
              if !orderItemsInsertOk then
                ⟨.error .orderItemsInsertFailed,
                 { st1 with orders := st1.orders.filter (fun o => o.id != oid) }⟩
              else
                let rows := orderItems.map fun it =>
                  ({ order_id := oid, product_id := it.product_id,
                     product_name := it.product_name, quantity := it.quantity,
                     price := it.price } : OrderItemRow)
                ⟨.ok (oid, calculatedTotalAmount),
                 { st1 with order_items := st1.order_items ++ rows }⟩

/-! ### `confirmPaymentAndCreateOrder` (payment action module) -/

/-- The distinct failure return sites of `confirmPaymentAndCreateOrder`.
The source folds a failed cart read and an empty cart into the single
"장바구니가 비어있습니다" return, hence one `emptyCart` constructor. -/
inductive PayError where
  | notAuthenticated
  | invalidInput
  | emptyCart
  | amountMismatch
  | outOfStockItem
  | paymentNotApproved
  | orderInsertFailed
  | orderItemsInsertFailed
  deriving DecidableEq

/-- The success payload of `confirmPaymentAndCreateOrder`. -/
structure ConfirmData where
  orderId : Nat
  paymentKey : String
  totalAmount : Money
  deriving DecidableEq

/-- Outcome of `confirmPaymentAndCreateOrder`: result, new store state, and
the number of times the Toss gateway (`confirmPaymentWithToss`) was
invoked. -/
structure ConfirmOutcome where
  result : Except PayError ConfirmData
  store : Store
  gatewayCalls : Nat

/-- Steps 2–5 of `confirmPaymentAndCreateOrder`, everything checked before
the gateway call: schema validation, cart load (failed read or zero lines →
empty-cart rejection), amount match against the cart total with epsilon
`0.01`, and rejection when any line's product has `stock_quantity === 0`. -/
def confirmValidate (st : Store) (uid paymentKey orderId : String) (amount : Money)
    (shippingAddress : Option ShippingAddressInput) :
    Except PayError (List CartItem × Money) :=
  if !confirmPaymentSchemaOk paymentKey orderId amount shippingAddress then
    .error .invalidInput
  else
    match getCartItems st (some uid) with
    | .err => .error .emptyCart
    | .ok cartItems cartTotalAmount =>
      if cartItems.isEmpty then
        .error .emptyCart
      else if |amount - cartTotalAmount| > 1/100 then
        .error .amountMismatch
      else if !(cartItems.filter fun item => item.products.stock_quantity == 0).isEmpty then
        .error .outOfStockItem
      else
        .ok (cartItems, cartTotalAmount)

/-- One iteration of step 11 (stock decrement) of
`confirmPaymentAndCreateOrder`: fetch the product's current stock; on fetch
failure or a missing row, skip; compute `newStock = stock - quantity`; if
negative, skip (the row is left untouched, not clamped); if the update
fails, skip; otherwise write `newStock` to every product row with that id.
`fetchOk` / `updateOk` inject per-product read and write success. -/
def applyStockDecrement (st : Store) (item : OrderItemRow)
    (fetchOk updateOk : Nat → Bool) : Store :=
  if !fetchOk item.product_id then st
  else
    match lookupProduct st item.product_id with
    | none => st
    | some product =>
      let newStock := product.stock_quantity - item.quantity
      if newStock < 0 then st
      else if !updateOk item.product_id then st
      else { st with products := st.products.map fun p =>
               if p.id == item.product_id then { p with stock_quantity := newStock } else p }

/-- Step 11 of `confirmPaymentAndCreateOrder`: the stock-decrement loop over
the just-inserted order lines; every per-line failure is skipped, never
fatal. -/
def decrementStockForItems (st : Store) (items : List OrderItemRow)
    (fetchOk updateOk : Nat → Bool) : Store :=
  items.foldl (fun s item => applyStockDecrement s item fetchOk updateOk) st

/-- Modelled from the spec: `clearCart` (cart action module) is imported by
the payment module but its definition is not among the provided sources.
Per spec §4.3 step 8 it deletes all of the user's cart lines and may fail,
in which case the failure is reported to the caller (who only logs it).
`clearOk` injects the success of the delete. -/
def clearCart (st : Store) (uid : String) (clearOk : Bool) : Store × Bool :=
  if clearOk then
    ({ st with cart_items := st.cart_items.filter fun r => r.clerk_id != uid }, true)
  else
    (st, false)

/-- The `orderNote || null` coalescing applied when inserting the order. -/
def noteOrNull : Option String → Option String
  | some "" => none
  | v => v

/-- The shipping JSONB written by the payment flow: the supplied address
with `addressDetail || ""`, or placeholder defaults (`customerName` =
user id, all other fields empty) when none was supplied. -/
def confirmShippingJson (uid : String) : Option ShippingAddressInput → ShippingJson
  | some a =>
    { customerName := some a.customerName, phoneNumber := a.phoneNumber,
      postalCode := a.postalCode, address := a.address,
      addressDetail := some (a.addressDetail.getD "") }
  | none =>
    { customerName := some uid, phoneNumber := "", postalCode := "",
      address := "", addressDetail := some "" }

/-- Steps 9–14 of `confirmPaymentAndCreateOrder`, everything after the
gateway approved: insert the `orders` row with status `confirmed`; insert
the `order_items` rows, deleting the order row again if that insert fails;
then best-effort stock decrement and cart clear, whose failures never
change the successful result.  All outcomes report one gateway call. -/
def confirmPersist (st : Store) (uid paymentKey : String)
    (cartItems : List CartItem) (cartTotalAmount : Money)
    (shippingAddress : Option ShippingAddressInput) (orderNote : Option String)
    (orderInsertOk orderItemsInsertOk : Bool)
    (fetchOk updateOk : Nat → Bool) (clearOk : Bool) : ConfirmOutcome :=
  if !orderInsertOk then ⟨.error .orderInsertFailed, st, 1⟩
  else
    let oid := st.nextId
    let newOrder : OrderRow :=
      { id := oid, clerk_id := uid, total_amount := cartTotalAmount,
        status := "confirmed",
        shipping_address := some (confirmShippingJson uid shippingAddress),
        order_note := noteOrNull orderNote }
    let st1 := { st with orders := st.orders ++ [newOrder], nextId := st.nextId + 1 }
    let orderItems := cartItems.map fun item =>
      ({ order_id := oid, product_id := item.product_id,
         product_name := item.products.name, quantity := item.quantity,
         price := item.products.price } : OrderItemRow)
    if !orderItemsInsertOk then
      ⟨.error .orderItemsInsertFailed,
       { st1 with orders := st1.orders.filter fun o => o.id != oid }, 1⟩
    else
      let st2 := { st1 with order_items := st1.order_items ++ orderItems }
      let st3 := decrementStockForItems st2 orderItems fetchOk updateOk
      let st4 := (clearCart st3 uid clearOk).1
      ⟨.ok ⟨oid, paymentKey, cartTotalAmount⟩, st4, 1⟩

/-- `confirmPaymentAndCreateOrder`: authenticate, run the pre-gateway
validation (`confirmValidate`), call the Toss gateway
(`confirmPaymentWithToss`, whose returned `status` string is injected as
`gatewayStatus`), reject with the payment-not-approved error unless the
status is `DONE`, then persist (`confirmPersist`). -/
def confirmPaymentAndCreateOrder (st : Store) (userId : Option String)
    (paymentKey orderId : String) (amount : Money)
    (shippingAddress : Option ShippingAddressInput) (orderNote : Option String)
    (gatewayStatus : String) (orderInsertOk orderItemsInsertOk : Bool)
    (fetchOk updateOk : Nat → Bool) (clearOk : Bool) : ConfirmOutcome :=
  match userId with
  | none => ⟨.error .notAuthenticated, st, 0⟩
  | some uid =>
    match confirmValidate st uid paymentKey orderId amount shippingAddress with
    | .error e => ⟨.error e, st, 0⟩
    | .ok (cartItems, cartTotalAmount) =>
      if gatewayStatus != "DONE" then
        ⟨.error .paymentNotApproved, st, 1⟩
      else
        confirmPersist st uid paymentKey cartItems cartTotalAmount
          shippingAddress orderNote orderInsertOk orderItemsInsertOk
          fetchOk updateOk clearOk

/-! ### `cancelOrder` (order action module) -/

/-- The distinct failure return sites of `cancelOrder`. -/
inductive CancelError where
  | notAuthenticated
  | orderNotFound
  | invalidState
  | updateFailed
  deriving DecidableEq

/-- Outcome of `cancelOrder`. -/
structure CancelOutcome where
  result : Except CancelError Unit
  store : Store

/-- `cancelOrder`: authenticate, fetch the order by id and owner, reject
unless its status is `pending`, then set the status to `cancelled` (the
update re-checks id and owner).  `updateOk` injects the success of the
update. -/
def cancelOrder (st : Store) (userId : Option String) (orderId : Nat)
    (updateOk : Bool) : CancelOutcome :=
  match userId with
  | none => ⟨.error .notAuthenticated, st⟩
  | some uid =>
    match st.orders.find? (fun o => o.id == orderId && o.clerk_id == uid) with
    | none => ⟨.error .orderNotFound, st⟩
    | some order =>
      if order.status != "pending" then
        ⟨.error .invalidState, st⟩
      else if !updateOk then
        ⟨.error .updateFailed, st⟩
      else
        ⟨.ok (),
         { st with orders := st.orders.map fun o =>
             if o.id == orderId && o.clerk_id == uid then
               { o with status := "cancelled" }
             else o }⟩

/-! ### `addToCart` (cart action module) -/

/-- The distinct failure return sites of `addToCart`; the insufficient-stock
message interpolates the current stock and the combined requested
quantity. -/
inductive CartError where
  | notAuthenticated
  | invalidQuantity
  | productNotFound
  | inactiveProduct
  | insufficientStock (stock requested : Int)
  | writeFailed
  deriving DecidableEq

/-- Outcome of `addToCart`: the returned `(cart item id, quantity)` on
success, and the new store state. -/
structure AddToCartOutcome where
  result : Except CartError (Nat × Int)
  store : Store

/-- `addToCart`: authenticate, validate the quantity (`≥ 1`; integrality is
carried by the `Int` type), fetch the product (missing or read failure →
one error site), reject inactive products, look up the user's existing cart
line for the product, check `existing quantity + requested quantity`
against current stock, then either update the existing line to the combined
quantity or insert a new line.  `writeOk` injects the success of the
update/insert. -/
def addToCart (st : Store) (userId : Option String) (productId : Nat)
    (quantity : Int) (writeOk : Bool) : AddToCartOutcome :=
  match userId with
  | none => ⟨.error .notAuthenticated, st⟩
  | some uid =>
    if quantity < 1 then ⟨.error .invalidQuantity, st⟩
    else
      match lookupProduct st productId with
      | none => ⟨.error .productNotFound, st⟩
      | some product =>
        if !product.is_active then ⟨.error .inactiveProduct, st⟩
        else
          let existingCartItem :=
            st.cart_items.find? fun r => r.clerk_id == uid && r.product_id == productId
          let totalQuantity :=
            match existingCartItem with
            | some e => e.quantity + quantity
            | none => quantity
          if totalQuantity > product.stock_quantity then
            ⟨.error (.insufficientStock product.stock_quantity totalQuantity), st⟩
          else
            match existingCartItem with
            | some e =>
              if !writeOk then ⟨.error .writeFailed, st⟩
              else
                ⟨.ok (e.id, totalQuantity),
                 { st with cart_items := st.cart_items.map fun r =>
                     if r.id == e.id && r.clerk_id == uid then
                       { r with quantity := totalQuantity }
                     else r }⟩
            | none =>
              if !writeOk then ⟨.error .writeFailed, st⟩
              else
                ⟨.ok (st.nextId, quantity),
                 { st with
                     cart_items := st.cart_items ++
                       [{ id := st.nextId, clerk_id := uid,
                          product_id := productId, quantity := quantity }],
                     nextId := st.nextId + 1 }⟩

/-! ### Specification-side definition for the cart-total claim -/

/-- Written from the spec's words, for comparison with `getCartItems` (C8):
the exact sum of `unit price × quantity` over all of the user's cart lines
(all lines whose product row exists, regardless of its active flag). -/
def specTotalAllLines (st : Store) (uid : String) : Money :=
  ((st.cart_items.filter fun r => r.clerk_id == uid).map fun r =>
      match lookupProduct st r.product_id with
      | some p => p.price * (r.quantity : Money)
      | none => 0).sum

/-- The sum of `unit price × quantity` over the user's cart lines whose
product exists and is active — what `getCartItems` actually totals. -/
def specTotalActiveLines (st : Store) (uid : String) : Money :=
  ((st.cart_items.filter fun r => r.clerk_id == uid).map fun r =>
      match lookupProduct st r.product_id with
      | some p => if p.is_active then p.price * (r.quantity : Money) else 0
      | none => 0).sum

/-! ### Concrete fixtures used by witnesses and counterexamples -/

/-- A shipping address accepted by `createOrderSchema`. -/
def addrOk : ShippingAddressInput :=
  { customerName := "Kim Gildong", address := "Seoul Mapo-gu 123",
    postalCode := "12345", addressDetail := none,
    phoneNumber := "01012345678" }

/-- A schema-valid `createOrder` input. -/
def inputOk : CreateOrderInput := { shippingAddress := addrOk, orderNote := none }

/-- One active product, price 100, stock 5; user `u` has it in the cart
with quantity 2. -/
def stBase : Store :=
  { products := [⟨1, "P1", 100, 5, true⟩],
    cart_items := [⟨2, "u", 1, 2⟩],
    orders := [], order_items := [], nextId := 10 }

/-- Stock exactly zero: active product with `stock_quantity = 0`, in the
cart with quantity 1. -/
def stZeroStock : Store :=
  { products := [⟨1, "P1", 100, 0, true⟩],
    cart_items := [⟨2, "u", 1, 1⟩],
    orders := [], order_items := [], nextId := 10 }

/-- Positive but insufficient stock: active product with stock 1, in the
cart with quantity 2. -/
def stShortStock : Store :=
  { products := [⟨1, "P1", 100, 1, true⟩],
    cart_items := [⟨2, "u", 1, 2⟩],
    orders := [], order_items := [], nextId := 10 }

/-- A cart with one inactive line (price 50, qty 1) and one active line
(price 100, qty 2). -/
def stInactiveLine : Store :=
  { products := [⟨1, "A", 50, 5, false⟩, ⟨2, "B", 100, 5, true⟩],
    cart_items := [⟨3, "u", 1, 1⟩, ⟨4, "u", 2, 2⟩],
    orders := [], order_items := [], nextId := 10 }

/-- Ample stock: active product with stock 10, in the cart with
quantity 1. -/
def stAmple : Store :=
  { products := [⟨1, "P1", 100, 10, true⟩],
    cart_items := [⟨2, "u", 1, 1⟩],
    orders := [], order_items := [], nextId := 10 }

/-- A first payment-confirmation run on `stAmple` whose cart clear fails
(everything else succeeds, gateway approves). -/
def outDupFirst : ConfirmOutcome :=
  confirmPaymentAndCreateOrder stAmple (some "u") "pay_dup" "ord_1" 100
    none none "DONE" true true (fun _ => true) (fun _ => true) false

/-- A second run with the same payment key, resubmitted against the state
the first run left behind. -/
def outDupSecond : ConfirmOutcome :=
  confirmPaymentAndCreateOrder outDupFirst.store (some "u") "pay_dup" "ord_1" 100
    none none "DONE" true true (fun _ => true) (fun _ => true) false

/-! ### Structural lemmas -/

theorem applyStockDecrement_only_products (st : Store) (item : OrderItemRow)
    (fetchOk updateOk : Nat → Bool) :
    (applyStockDecrement st item fetchOk updateOk).cart_items = st.cart_items ∧
    (applyStockDecrement st item fetchOk updateOk).orders = st.orders ∧
    (applyStockDecrement st item fetchOk updateOk).order_items = st.order_items ∧
    (applyStockDecrement st item fetchOk updateOk).nextId = st.nextId := by
  unfold applyStockDecrement
  dsimp only
  repeat' split
  all_goals exact ⟨rfl, rfl, rfl, rfl⟩

theorem decrementStockForItems_only_products (st : Store) (items : List OrderItemRow)
    (fetchOk updateOk : Nat → Bool) :
    (decrementStockForItems st items fetchOk updateOk).cart_items = st.cart_items ∧
    (decrementStockForItems st items fetchOk updateOk).orders = st.orders ∧
    (decrementStockForItems st items fetchOk updateOk).order_items = st.order_items ∧
    (decrementStockForItems st items fetchOk updateOk).nextId = st.nextId := by
  induction items generalizing st with
  | nil => exact ⟨rfl, rfl, rfl, rfl⟩
  | cons item rest ih =>
    have h1 := applyStockDecrement_only_products st item fetchOk updateOk
    have h2 := ih (applyStockDecrement st item fetchOk updateOk)
    exact ⟨h2.1.trans h1.1, h2.2.1.trans h1.2.1, h2.2.2.1.trans h1.2.2.1,
           h2.2.2.2.trans h1.2.2.2⟩

theorem clearCart_only_cart (st : Store) (uid : String) (clearOk : Bool) :
    (clearCart st uid clearOk).1.products = st.products ∧
    (clearCart st uid clearOk).1.orders = st.orders ∧
    (clearCart st uid clearOk).1.order_items = st.order_items ∧
    (clearCart st uid clearOk).1.nextId = st.nextId := by
  unfold clearCart
  split
  · exact ⟨rfl, rfl, rfl, rfl⟩
  · exact ⟨rfl, rfl, rfl, rfl⟩

theorem confirmPersist_gatewayCalls (st : Store) (uid pk : String)
    (cartItems : List CartItem) (total : Money)
    (addr : Option ShippingAddressInput) (note : Option String)
    (oIns iIns : Bool) (fOk uOk : Nat → Bool) (cOk : Bool) :
    (confirmPersist st uid pk cartItems total addr note oIns iIns fOk uOk cOk).gatewayCalls
      = 1 := by
  unfold confirmPersist
  split
  · rfl
  · split
    · rfl
    · rfl

/-- `confirmValidate` succeeds exactly by passing each pre-gateway check. -/
theorem confirmValidate_ok_inv (st : Store) (uid pk oid : String) (amt : Money)
    (addr : Option ShippingAddressInput) (items : List CartItem) (total : Money)
    (h : confirmValidate st uid pk oid amt addr = .ok (items, total)) :
    confirmPaymentSchemaOk pk oid amt addr = true ∧
    getCartItems st (some uid) = .ok items total ∧
    items.isEmpty = false ∧
    ¬(|amt - total| > 1/100) ∧
    (items.filter fun item => item.products.stock_quantity == 0).isEmpty = true := by
  unfold confirmValidate at h
  split at h
  · exact absurd h (by simp)
  · next hschema =>
    rw [Bool.not_eq_true', Bool.not_eq_false] at hschema
    split at h
    · exact absurd h (by simp)
    · next heq =>
      split at h
      · exact absurd h (by simp)
      · split at h
        · exact absurd h (by simp)
        · split at h
          · exact absurd h (by simp)
          · next h0 h1 h2 =>
            rw [Except.ok.injEq, Prod.mk.injEq] at h
            obtain ⟨h3, h4⟩ := h
            subst h3; subst h4
            refine ⟨hschema, heq, by simpa using h0, h1, by simpa using h2⟩

/-- Conversely, passing every pre-gateway check makes `confirmValidate`
succeed with the loaded cart. -/
theorem confirmValidate_ok_of (st : Store) (uid pk oid : String) (amt : Money)
    (addr : Option ShippingAddressInput) (items : List CartItem) (total : Money)
    (hschema : confirmPaymentSchemaOk pk oid amt addr = true)
    (hcart : getCartItems st (some uid) = .ok items total)
    (hne : items.isEmpty = false)
    (hamt : ¬(|amt - total| > 1/100))
    (hstock : (items.filter fun item => item.products.stock_quantity == 0).isEmpty = true) :
    confirmValidate st uid pk oid amt addr = .ok (items, total) := by
  unfold confirmValidate
  rw [hschema, hcart]
  simp [hne, hstock]
  simpa using not_lt.mp hamt

/-- Every item returned by the cart-collection loop carries an active
product: inactive lines are silently dropped, never surfaced. -/
theorem collectCart_active (st : Store) (rows : List CartItemRow) :
    ∀ item ∈ (collectCart st rows).1, item.products.is_active = true := by
  induction rows with
  | nil => intro item h; simp [collectCart] at h
  | cons r rs ih =>
    intro item h
    unfold collectCart at h
    cases hl : lookupProduct st r.product_id with
    | none => simp only [hl] at h; exact ih item h
    | some p =>
      simp only [hl] at h
      by_cases hp : p.is_active
      · rw [if_pos hp] at h
        rcases List.mem_cons.mp h with h1 | h1
        · rw [h1]; exact hp
        · exact ih item h1
      · rw [if_neg hp] at h; exact ih item h

/-- The running total of the cart-collection loop is the sum of
`price × quantity` over the rows with an existing, active product. -/
theorem collectCart_total (st : Store) (rows : List CartItemRow) :
    (collectCart st rows).2 =
      (rows.map fun r =>
        match lookupProduct st r.product_id with
        | some p => if p.is_active then p.price * (r.quantity : Money) else 0
        | none => 0).sum := by
  induction rows with
  | nil => simp [collectCart]
  | cons r rs ih =>
    unfold collectCart
    cases hl : lookupProduct st r.product_id with
    | none => simp [hl, ih]
    | some p =>
      by_cases hp : p.is_active
      · simp [hl, hp, ih]
      · simp [hl, hp, ih]

/-- The collected items' own `price × quantity` sum equals the loop's
running total. -/
theorem collectCart_items_sum (st : Store) (rows : List CartItemRow) :
    ((collectCart st rows).1.map fun it => it.products.price * (it.quantity : Money)).sum
      = (collectCart st rows).2 := by
  induction rows with
  | nil => simp [collectCart]
  | cons r rs ih =>
    unfold collectCart
    cases hl : lookupProduct st r.product_id with
    | none => simp [hl, ih]
    | some p =>
      by_cases hp : p.is_active
      · simp [hl, hp, ih]
      · simp [hl, hp, ih]

/-- `createOrder`'s per-line re-validation loop recomputes exactly the sum
of `price × quantity` over the items it was given. -/
theorem validateCartItems_total (items : List CartItem) (specs : List OrderItemSpec)
    (calcTotal : Money) (h : validateCartItems items = .ok (specs, calcTotal)) :
    calcTotal = (items.map fun it => it.products.price * (it.quantity : Money)).sum := by
  induction items generalizing specs calcTotal with
  | nil =>
    simp only [validateCartItems, Except.ok.injEq, Prod.mk.injEq] at h
    simp [← h.2]
  | cons item rest ih =>
    unfold validateCartItems at h
    by_cases h1 : item.products.is_active
    case neg => simp [h1] at h
    case pos =>
    by_cases h2 : item.quantity > item.products.stock_quantity
    case pos => simp [h1, h2] at h
    case neg =>
    by_cases h3 : item.products.stock_quantity = 0
    case pos => rw [h3] at h2; simp [h1, h2, h3] at h
    case neg =>
    simp only [h1, h2, h3, Bool.not_true, Bool.false_eq_true, if_false, if_neg,
      beq_iff_eq, ite_false] at h
    cases hr : validateCartItems rest with
    | error e => rw [hr] at h; simp at h
    | ok pr =>
      obtain ⟨specs', total'⟩ := pr
      rw [hr] at h
      simp only [Except.ok.injEq, Prod.mk.injEq] at h
      obtain ⟨hs, hc⟩ := h
      rw [← hc, List.map_cons, List.sum_cons, ih _ _ hr]

/-- When both inserts succeed, the post-gateway persistence step returns
success and appends exactly one `confirmed` order row for the user. -/
theorem confirmPersist_ok_orders (st : Store) (uid pk : String)
    (items : List CartItem) (total : Money) (addr : Option ShippingAddressInput)
    (note : Option String) (fOk uOk : Nat → Bool) (cOk : Bool) :
    (confirmPersist st uid pk items total addr note true true fOk uOk cOk).result
        = .ok ⟨st.nextId, pk, total⟩ ∧
    (confirmPersist st uid pk items total addr note true true fOk uOk cOk).store.orders
        = st.orders ++ [⟨st.nextId, uid, total, "confirmed",
            some (confirmShippingJson uid addr), noteOrNull note⟩] := by
  unfold confirmPersist
  simp only [Bool.not_true, Bool.false_eq_true, if_false]
  refine ⟨by trivial, ?_⟩
  rw [(clearCart_only_cart _ uid cOk).2.1,
    (decrementStockForItems_only_products _ _ fOk uOk).2.1]

/-- Filtering a user's rows out of a list leaves nothing of that user. -/
theorem filter_user_of_filter_ne (uid : String) (l : List CartItemRow) :
    ((l.filter fun r => r.clerk_id != uid).filter fun r => r.clerk_id == uid) = [] := by
  induction l with
  | nil => rfl
  | cons r rs ih =>
    by_cases h : r.clerk_id = uid
    · simp [List.filter_cons, h, ih]
    · simp [List.filter_cons, h, ih]

/-- A successful payment-confirmation run passed schema validation and, if
the cart clear succeeded, left the user with an empty cart. -/
theorem confirm_ok_inv (st : Store) (uid pk oid : String) (amt : Money)
    (addr : Option ShippingAddressInput) (note : Option String) (gw : String)
    (oIns iIns : Bool) (fOk uOk : Nat → Bool) (d : ConfirmData)
    (h : (confirmPaymentAndCreateOrder st (some uid) pk oid amt addr note gw
        oIns iIns fOk uOk true).result = .ok d) :
    confirmPaymentSchemaOk pk oid amt addr = true ∧
    ((confirmPaymentAndCreateOrder st (some uid) pk oid amt addr note gw
        oIns iIns fOk uOk true).store.cart_items.filter
      fun r => r.clerk_id == uid) = [] := by
  cases hv : confirmValidate st uid pk oid amt addr with
  | error e =>
    have hred : confirmPaymentAndCreateOrder st (some uid) pk oid amt addr
        note gw oIns iIns fOk uOk true = ⟨.error e, st, 0⟩ := by
      simp only [confirmPaymentAndCreateOrder, hv]
    rw [hred] at h
    exact absurd h (by simp)
  | ok pr =>
    obtain ⟨items, total⟩ := pr
    have hschema := (confirmValidate_ok_inv st uid pk oid amt addr items total hv).1
    by_cases hgw : gw = "DONE"
    case neg =>
      have hred : confirmPaymentAndCreateOrder st (some uid) pk oid amt addr
          note gw oIns iIns fOk uOk true = ⟨.error .paymentNotApproved, st, 1⟩ := by
        simp only [confirmPaymentAndCreateOrder, hv]
        rw [if_pos (bne_iff_ne.mpr hgw)]
      rw [hred] at h
      exact absurd h (by simp)
    case pos =>
      subst hgw
      have hred : confirmPaymentAndCreateOrder st (some uid) pk oid amt addr
          note "DONE" oIns iIns fOk uOk true
          = confirmPersist st uid pk items total addr note oIns iIns fOk uOk true := by
        simp only [confirmPaymentAndCreateOrder, hv, bne_self_eq_false,
          Bool.false_eq_true, if_false]
      rw [hred] at h ⊢
      refine ⟨hschema, ?_⟩
      cases oIns with
      | false => unfold confirmPersist at h; simp at h
      | true =>
        cases iIns with
        | false => unfold confirmPersist at h; simp at h
        | true =>
          unfold confirmPersist
          simp only [Bool.not_true, Bool.false_eq_true, if_false]
          exact filter_user_of_filter_ne uid _

/-- A user with no cart rows is rejected as an empty cart before the
gateway, with the store untouched. -/
theorem confirm_emptyCart_of_no_rows (st1 : Store) (uid pk oid : String)
    (amt : Money) (addr : Option ShippingAddressInput) (note : Option String)
    (gw' : String) (oIns' iIns' : Bool) (fOk' uOk' : Nat → Bool) (cOk' : Bool)
    (hschema : confirmPaymentSchemaOk pk oid amt addr = true)
    (hrows : (st1.cart_items.filter fun r => r.clerk_id == uid) = []) :
    confirmPaymentAndCreateOrder st1 (some uid) pk oid amt addr note gw'
      oIns' iIns' fOk' uOk' cOk' = ⟨.error .emptyCart, st1, 0⟩ := by
  have hg : getCartItems st1 (some uid) = .ok [] 0 := by
    unfold getCartItems
    dsimp only
    rw [hrows]
    rfl
  have hval : confirmValidate st1 uid pk oid amt addr = .error .emptyCart := by
    unfold confirmValidate
    rw [hschema, hg]
    simp
  simp only [confirmPaymentAndCreateOrder, hval]

/-- One decrement iteration keeps every stock non-negative: the write is
guarded by `newStock < 0 → skip`. -/
theorem applyStockDecrement_nonneg (st : Store) (item : OrderItemRow)
    (fOk uOk : Nat → Bool)
    (h : ∀ q ∈ st.products, 0 ≤ q.stock_quantity) :
    ∀ q ∈ (applyStockDecrement st item fOk uOk).products, 0 ≤ q.stock_quantity := by
  by_cases hf : fOk item.product_id
  case neg => simpa [applyStockDecrement, hf] using h
  case pos =>
    unfold applyStockDecrement
    simp only [hf, Bool.not_true, Bool.false_eq_true, if_false]
    cases hl : lookupProduct st item.product_id with
    | none => exact h
    | some p0 =>
      dsimp only
      by_cases hneg : p0.stock_quantity - item.quantity < 0
      · simp only [hneg, if_true]
        exact h
      · simp only [hneg, if_false]
        by_cases hu : uOk item.product_id
        · simp only [hu, Bool.not_true, Bool.false_eq_true, if_false]
          intro q hq
          rcases List.mem_map.mp hq with ⟨x, hx, rfl⟩
          by_cases hid : (x.id == item.product_id) = true
          · simp only [hid, if_true]
            omega
          · simp only [hid, Bool.false_eq_true, if_false]
            exact h x hx
        · simp only [hu, Bool.not_false, if_true]
          exact h

/-! ### Claim theorems -/

/-- C1: In `confirmPaymentAndCreateOrder` the gateway client is never
invoked — and no local state is touched — when the pre-gateway validation
(`confirmValidate`: schema, cart validation, amount match with epsilon
0.01, zero-stock check) fails; and whenever the gateway's status is not
`DONE`, the store is left exactly as it was and, if the gateway was in
fact reached, the invocation is rejected with the payment-not-approved
error. -/
theorem confirm_gateway_guard_and_clean_rejection (st : Store)
    (userId : Option String) (pk oid : String) (amt : Money)
    (addr : Option ShippingAddressInput) (note : Option String)
    (gw : String) (oIns iIns : Bool) (fOk uOk : Nat → Bool) (cOk : Bool) :
    (∀ uid e, userId = some uid →
        confirmValidate st uid pk oid amt addr = .error e →
        (confirmPaymentAndCreateOrder st userId pk oid amt addr note gw
            oIns iIns fOk uOk cOk).gatewayCalls = 0 ∧
        (confirmPaymentAndCreateOrder st userId pk oid amt addr note gw
            oIns iIns fOk uOk cOk).store = st) ∧
    (gw ≠ "DONE" →
        (confirmPaymentAndCreateOrder st userId pk oid amt addr note gw
            oIns iIns fOk uOk cOk).store = st ∧
        ((confirmPaymentAndCreateOrder st userId pk oid amt addr note gw
            oIns iIns fOk uOk cOk).gatewayCalls ≠ 0 →
          (confirmPaymentAndCreateOrder st userId pk oid amt addr note gw
            oIns iIns fOk uOk cOk).result = .error .paymentNotApproved)) := by
  cases userId with
  | none =>
    exact ⟨fun uid e huid hv => absurd huid (by simp),
           fun hgw => ⟨rfl, fun hc => absurd rfl hc⟩⟩
  | some uid =>
    cases hv : confirmValidate st uid pk oid amt addr with
    | error e =>
      have hred : confirmPaymentAndCreateOrder st (some uid) pk oid amt addr
          note gw oIns iIns fOk uOk cOk = ⟨.error e, st, 0⟩ := by
        simp only [confirmPaymentAndCreateOrder, hv]
      refine ⟨fun uid' e' huid hv' => ?_, fun hgw => ?_⟩
      · rw [hred]; exact ⟨rfl, rfl⟩
      · rw [hred]; exact ⟨rfl, fun hc => absurd rfl hc⟩
    | ok pr =>
      obtain ⟨items, total⟩ := pr
      by_cases hgw : gw = "DONE"
      · refine ⟨fun uid' e' huid hv' => ?_, fun hgw' => absurd hgw hgw'⟩
        obtain rfl : uid' = uid := by injection huid with h; exact h.symm
        rw [hv] at hv'
        exact absurd hv' (by simp)
      · have hred : confirmPaymentAndCreateOrder st (some uid) pk oid amt addr
            note gw oIns iIns fOk uOk cOk = ⟨.error .paymentNotApproved, st, 1⟩ := by
          simp only [confirmPaymentAndCreateOrder, hv]
          rw [if_pos (bne_iff_ne.mpr hgw)]
        refine ⟨fun uid' e' huid hv' => ?_, fun hgw' => ?_⟩
        · obtain rfl : uid' = uid := by injection huid with h; exact h.symm
          rw [hv] at hv'
          exact absurd hv' (by simp)
        · rw [hred]; exact ⟨rfl, fun hc => rfl⟩

/-- C1 witness: with an amount that does not match the cart total and a
gateway status other than `DONE`, the run makes zero gateway calls and
leaves the store untouched. -/
theorem confirm_gateway_guard_witness :
    (confirmPaymentAndCreateOrder stShortStock (some "u") "pay_1" "ord_1" 999
        none none "CANCELED" true true (fun _ => true) (fun _ => true) true).gatewayCalls = 0 ∧
    (confirmPaymentAndCreateOrder stShortStock (some "u") "pay_1" "ord_1" 999
        none none "CANCELED" true true (fun _ => true) (fun _ => true) true).store
      = stShortStock := by
  have hval : confirmValidate stShortStock "u" "pay_1" "ord_1" 999 none
      = .error .amountMismatch := by
    have hcart : getCartItems stShortStock (some "u") =
        .ok [⟨2, "u", 1, 2, ⟨1, "P1", 100, 1, true⟩⟩] 200 := by
      norm_num [getCartItems, collectCart, lookupProduct, stShortStock]
    norm_num [confirmValidate, hcart, confirmPaymentSchemaOk,
      show "pay_1".length = 5 from rfl, show "ord_1".length = 5 from rfl]
  exact (confirm_gateway_guard_and_clean_rejection stShortStock (some "u")
    "pay_1" "ord_1" 999 none none "CANCELED" true true (fun _ => true)
    (fun _ => true) true).1 "u" .amountMismatch rfl hval

/-- C2: when the pre-gateway validation passes, the gateway reports `DONE`,
and the order and order-line inserts succeed, the invocation returns
success and a `confirmed` order row for the user exists afterwards — for
every behaviour of the per-line stock decrement reads/writes and of the
cart clear. -/
theorem confirm_done_order_persists_despite_tail_failures (st : Store)
    (uid pk oid : String) (amt : Money) (addr : Option ShippingAddressInput)
    (note : Option String) (fOk uOk : Nat → Bool) (cOk : Bool)
    (items : List CartItem) (total : Money)
    (hschema : confirmPaymentSchemaOk pk oid amt addr = true)
    (hcart : getCartItems st (some uid) = .ok items total)
    (hne : items.isEmpty = false)
    (hamt : |amt - total| ≤ 1/100)
    (hstock : (items.filter fun item => item.products.stock_quantity == 0).isEmpty = true) :
    (confirmPaymentAndCreateOrder st (some uid) pk oid amt addr note "DONE"
        true true fOk uOk cOk).result = .ok ⟨st.nextId, pk, total⟩ ∧
    ∃ o ∈ (confirmPaymentAndCreateOrder st (some uid) pk oid amt addr note "DONE"
        true true fOk uOk cOk).store.orders,
      o.id = st.nextId ∧ o.clerk_id = uid ∧ o.status = "confirmed" := by
  have hv := confirmValidate_ok_of st uid pk oid amt addr items total hschema
    hcart hne (not_lt.mpr hamt) hstock
  have hred : confirmPaymentAndCreateOrder st (some uid) pk oid amt addr note
      "DONE" true true fOk uOk cOk
      = confirmPersist st uid pk items total addr note true true fOk uOk cOk := by
    simp only [confirmPaymentAndCreateOrder, hv, bne_self_eq_false,
      Bool.false_eq_true, if_false]
  have hp := confirmPersist_ok_orders st uid pk items total addr note fOk uOk cOk
  rw [hred, hp.1, hp.2]
  exact ⟨rfl, ⟨st.nextId, uid, total, "confirmed",
    some (confirmShippingJson uid addr), noteOrNull note⟩, by simp, rfl, rfl, rfl⟩

/-- C2 witness: a concrete valid run with `DONE`, both inserts succeeding,
and the stock decrement and cart clear both failing. -/
theorem confirm_done_order_persists_witness :
    (confirmPaymentAndCreateOrder stBase (some "u") "pay_1" "ord_1" 200
        none none "DONE" true true (fun _ => false) (fun _ => false) false).result
      = .ok ⟨stBase.nextId, "pay_1", 200⟩ ∧
    ∃ o ∈ (confirmPaymentAndCreateOrder stBase (some "u") "pay_1" "ord_1" 200
        none none "DONE" true true (fun _ => false) (fun _ => false) false).store.orders,
      o.id = stBase.nextId ∧ o.clerk_id = "u" ∧ o.status = "confirmed" := by
  refine confirm_done_order_persists_despite_tail_failures stBase "u" "pay_1"
    "ord_1" 200 none none (fun _ => false) (fun _ => false) false
    [⟨2, "u", 1, 2, ⟨1, "P1", 100, 5, true⟩⟩] 200 ?_ ?_ ?_ ?_ ?_
  · norm_num [confirmPaymentSchemaOk,
      show "pay_1".length = 5 from rfl, show "ord_1".length = 5 from rfl]
  · norm_num [getCartItems, collectCart, lookupProduct, stBase]
  · rfl
  · norm_num
  · rfl

/-- C3: in `createOrder`, whenever the order-line insert fails, the run
ends in an error and afterwards the `orders` and `order_items` tables are
exactly as before the attempt — the just-inserted order row (if any) has
been deleted by the compensating delete, so no order without lines
survives the attempt. -/
theorem createOrder_compensating_delete (st : Store) (userId : Option String)
    (input : CreateOrderInput) (oIns : Bool)
    (hfresh : ∀ o ∈ st.orders, o.id ≠ st.nextId) :
    (createOrder st userId input oIns false).store.orders = st.orders ∧
    (createOrder st userId input oIns false).store.order_items = st.order_items ∧
    ∀ r, (createOrder st userId input oIns false).result ≠ .ok r := by
  cases userId with
  | none => exact ⟨rfl, rfl, fun r h => by simp [createOrder] at h⟩
  | some uid =>
    cases hp : createOrderSchemaParse input with
    | none =>
      simp only [createOrder, hp]
      exact ⟨by trivial, by trivial, fun r h => by simp at h⟩
    | some v =>
      obtain ⟨addr, note⟩ := v
      cases hc : getCartItems st (some uid) with
      | err =>
        simp only [createOrder, hp, hc]
        exact ⟨by trivial, by trivial, fun r h => by simp at h⟩
      | ok cartItems cartTotal =>
        by_cases he : cartItems.isEmpty
        · simp only [createOrder, hp, hc, he, if_true]
          exact ⟨by trivial, by trivial, fun r h => by simp at h⟩
        · cases hval : validateCartItems cartItems with
          | error e =>
            simp only [createOrder, hp, hc, he, if_false, hval, Bool.false_eq_true]
            exact ⟨by trivial, by trivial, fun r h => by simp at h⟩
          | ok pr =>
            obtain ⟨orderItems, calcTotal⟩ := pr
            by_cases hamt : |calcTotal - cartTotal| > 1/100
            · simp only [createOrder, hp, hc, he, hval, hamt, if_true, Bool.false_eq_true,
                if_false]
              exact ⟨by trivial, by trivial, fun r h => by simp at h⟩
            · cases oIns with
              | false =>
                simp only [createOrder, hp, hc, he, hval, hamt, Bool.false_eq_true,
                  if_false, Bool.not_false, if_true]
                exact ⟨by trivial, by trivial, fun r h => by simp at h⟩
              | true =>
                simp only [createOrder, hp, hc, he, hval, hamt, Bool.false_eq_true,
                  if_false, Bool.not_true, Bool.not_false, if_true]
                refine ⟨?_, by trivial, fun r h => by simp at h⟩
                rw [List.filter_append]
                have h1 : st.orders.filter
                    (fun o => o.id != st.nextId) = st.orders := by
                  rw [List.filter_eq_self]
                  intro o ho
                  simpa using hfresh o ho
                simp [h1]

/-- C3 witness: a concrete run in which the order insert succeeds and the
order-line insert fails, starting from a store with an unrelated existing
order. -/
theorem createOrder_compensating_delete_witness :
    (createOrder stBase (some "u") inputOk true false).store.orders = stBase.orders ∧
    (createOrder stBase (some "u") inputOk true false).store.order_items
      = stBase.order_items ∧
    ∀ r, (createOrder stBase (some "u") inputOk true false).result ≠ .ok r :=
  createOrder_compensating_delete stBase (some "u") inputOk true
    (by intro o ho; simp [stBase] at ho)

/-- C4 counterexample: with the first run's cart clear failing (a
best-effort step whose failure the source tolerates), resubmitting the
same payment key runs the gateway a second time and leaves two order
rows — the source has no per-payment-key deduplication. -/
theorem confirm_duplicate_invocation_double_order :
    outDupFirst.gatewayCalls = 1 ∧ outDupSecond.gatewayCalls = 1 ∧
    outDupSecond.store.orders.length = 2 := by
  have hcart1 : getCartItems stAmple (some "u") =
      .ok [⟨2, "u", 1, 1, ⟨1, "P1", 100, 10, true⟩⟩] 100 := by
    norm_num [getCartItems, collectCart, lookupProduct, stAmple]
  have hval1 : confirmValidate stAmple "u" "pay_dup" "ord_1" 100 none
      = .ok ([⟨2, "u", 1, 1, ⟨1, "P1", 100, 10, true⟩⟩], 100) := by
    norm_num [confirmValidate, hcart1, confirmPaymentSchemaOk,
      show "pay_dup".length = 7 from rfl, show "ord_1".length = 5 from rfl]
  have hfirst : outDupFirst = ⟨.ok ⟨10, "pay_dup", 100⟩,
      ⟨[⟨1, "P1", 100, 9, true⟩], [⟨2, "u", 1, 1⟩],
       [⟨10, "u", 100, "confirmed", some ⟨some "u", "", "", some "", ""⟩, none⟩],
       [⟨10, 1, "P1", 1, 100⟩], 11⟩, 1⟩ := by
    simp only [outDupFirst, confirmPaymentAndCreateOrder, hval1,
      bne_self_eq_false, Bool.false_eq_true, if_false]
    norm_num [confirmPersist, decrementStockForItems, applyStockDecrement,
      lookupProduct, clearCart, confirmShippingJson, noteOrNull, stAmple]
  have hcart2 : getCartItems outDupFirst.store (some "u") =
      .ok [⟨2, "u", 1, 1, ⟨1, "P1", 100, 9, true⟩⟩] 100 := by
    rw [hfirst]
    norm_num [getCartItems, collectCart, lookupProduct]
  have hval2 : confirmValidate outDupFirst.store "u" "pay_dup" "ord_1" 100 none
      = .ok ([⟨2, "u", 1, 1, ⟨1, "P1", 100, 9, true⟩⟩], 100) := by
    norm_num [confirmValidate, hcart2, confirmPaymentSchemaOk,
      show "pay_dup".length = 7 from rfl, show "ord_1".length = 5 from rfl]
  have hred2 : outDupSecond = confirmPersist outDupFirst.store "u" "pay_dup"
      [⟨2, "u", 1, 1, ⟨1, "P1", 100, 9, true⟩⟩] 100 none none true true
      (fun _ => true) (fun _ => true) false := by
    simp only [outDupSecond, confirmPaymentAndCreateOrder, hval2,
      bne_self_eq_false, Bool.false_eq_true, if_false]
  refine ⟨by rw [hfirst], ?_, ?_⟩
  · rw [hred2, confirmPersist_gatewayCalls]
  · rw [hred2,
      (confirmPersist_ok_orders outDupFirst.store "u" "pay_dup"
        [⟨2, "u", 1, 1, ⟨1, "P1", 100, 9, true⟩⟩] 100 none none
        (fun _ => true) (fun _ => true) false).2, hfirst]
    simp

/-- C4 amended: there is no per-payment-key deduplication; the only
protection is indirect: when a run succeeds with its cart clear included,
the user's cart is empty afterwards, so re-invoking the service — same
payment key or not — is rejected as an empty cart before the gateway,
with no state change and no new order. -/
theorem confirm_second_invocation_rejected_after_cart_clear (st : Store)
    (uid pk oid : String) (amt : Money) (addr : Option ShippingAddressInput)
    (note : Option String) (gw : String) (oIns iIns : Bool)
    (fOk uOk : Nat → Bool) (d : ConfirmData)
    (h : (confirmPaymentAndCreateOrder st (some uid) pk oid amt addr note gw
        oIns iIns fOk uOk true).result = .ok d)
    (gw' : String) (oIns' iIns' : Bool) (fOk' uOk' : Nat → Bool) (cOk' : Bool) :
    (confirmPaymentAndCreateOrder
        (confirmPaymentAndCreateOrder st (some uid) pk oid amt addr note gw
          oIns iIns fOk uOk true).store
        (some uid) pk oid amt addr note gw' oIns' iIns' fOk' uOk' cOk').gatewayCalls = 0 ∧
    (confirmPaymentAndCreateOrder
        (confirmPaymentAndCreateOrder st (some uid) pk oid amt addr note gw
          oIns iIns fOk uOk true).store
        (some uid) pk oid amt addr note gw' oIns' iIns' fOk' uOk' cOk').store
      = (confirmPaymentAndCreateOrder st (some uid) pk oid amt addr note gw
          oIns iIns fOk uOk true).store ∧
    (confirmPaymentAndCreateOrder
        (confirmPaymentAndCreateOrder st (some uid) pk oid amt addr note gw
          oIns iIns fOk uOk true).store
        (some uid) pk oid amt addr note gw' oIns' iIns' fOk' uOk' cOk').result
      = .error .emptyCart := by
  obtain ⟨hschema, hempty⟩ := confirm_ok_inv st uid pk oid amt addr note gw
    oIns iIns fOk uOk d h
  have hred := confirm_emptyCart_of_no_rows
    (confirmPaymentAndCreateOrder st (some uid) pk oid amt addr note gw
      oIns iIns fOk uOk true).store uid pk oid amt addr note gw' oIns' iIns'
    fOk' uOk' cOk' hschema hempty
  rw [hred]
  exact ⟨rfl, rfl, rfl⟩

/-- C4 witness: a concrete successful run (gateway `DONE`, all writes and
the cart clear succeeding), after which the resubmission makes no gateway
call, changes nothing, and reports an empty cart. -/
theorem confirm_second_invocation_rejected_witness :
    (confirmPaymentAndCreateOrder
        (confirmPaymentAndCreateOrder stAmple (some "u") "pay_dup" "ord_1" 100
          none none "DONE" true true (fun _ => true) (fun _ => true) true).store
        (some "u") "pay_dup" "ord_1" 100 none none "DONE" true true
        (fun _ => true) (fun _ => true) true).gatewayCalls = 0 ∧
    (confirmPaymentAndCreateOrder
        (confirmPaymentAndCreateOrder stAmple (some "u") "pay_dup" "ord_1" 100
          none none "DONE" true true (fun _ => true) (fun _ => true) true).store
        (some "u") "pay_dup" "ord_1" 100 none none "DONE" true true
        (fun _ => true) (fun _ => true) true).store
      = (confirmPaymentAndCreateOrder stAmple (some "u") "pay_dup" "ord_1" 100
          none none "DONE" true true (fun _ => true) (fun _ => true) true).store ∧
    (confirmPaymentAndCreateOrder
        (confirmPaymentAndCreateOrder stAmple (some "u") "pay_dup" "ord_1" 100
          none none "DONE" true true (fun _ => true) (fun _ => true) true).store
        (some "u") "pay_dup" "ord_1" 100 none none "DONE" true true
        (fun _ => true) (fun _ => true) true).result = .error .emptyCart := by
  have hcart1 : getCartItems stAmple (some "u") =
      .ok [⟨2, "u", 1, 1, ⟨1, "P1", 100, 10, true⟩⟩] 100 := by
    norm_num [getCartItems, collectCart, lookupProduct, stAmple]
  have hval1 : confirmValidate stAmple "u" "pay_dup" "ord_1" 100 none
      = .ok ([⟨2, "u", 1, 1, ⟨1, "P1", 100, 10, true⟩⟩], 100) := by
    norm_num [confirmValidate, hcart1, confirmPaymentSchemaOk,
      show "pay_dup".length = 7 from rfl, show "ord_1".length = 5 from rfl]
  have hok : (confirmPaymentAndCreateOrder stAmple (some "u") "pay_dup" "ord_1"
      100 none none "DONE" true true (fun _ => true) (fun _ => true) true).result
      = .ok ⟨10, "pay_dup", 100⟩ := by
    have hred : confirmPaymentAndCreateOrder stAmple (some "u") "pay_dup" "ord_1"
        100 none none "DONE" true true (fun _ => true) (fun _ => true) true
        = confirmPersist stAmple "u" "pay_dup"
            [⟨2, "u", 1, 1, ⟨1, "P1", 100, 10, true⟩⟩] 100 none none true true
            (fun _ => true) (fun _ => true) true := by
      simp only [confirmPaymentAndCreateOrder, hval1, bne_self_eq_false,
        Bool.false_eq_true, if_false]
    rw [hred,
      (confirmPersist_ok_orders stAmple "u" "pay_dup"
        [⟨2, "u", 1, 1, ⟨1, "P1", 100, 10, true⟩⟩] 100 none none
        (fun _ => true) (fun _ => true) true).1]
    rfl
  exact confirm_second_invocation_rejected_after_cart_clear stAmple "u"
    "pay_dup" "ord_1" 100 none none "DONE" true true (fun _ => true)
    (fun _ => true) ⟨10, "pay_dup", 100⟩ hok "DONE" true true (fun _ => true)
    (fun _ => true) true

/-- C5: the code evaluated at the failing input — an active product with
stock exactly zero, in the cart with quantity 1.  `createOrder` rejects it
through the generic insufficient-stock return (carrying current stock 0
and requested quantity 1), not the dedicated out-of-stock return: the
`quantity > stock` check precedes the `stock === 0` check, making the
out-of-stock branch unreachable for any cart line with quantity ≥ 1.  No
writes occur. -/
theorem createOrder_zero_stock_returns_insufficientStock :
    (createOrder stZeroStock (some "u") inputOk true true).result =
      .error (.insufficientStock "P1" 0 1) ∧
    (∀ n, (createOrder stZeroStock (some "u") inputOk true true).result ≠
      .error (.outOfStock n)) ∧
    (createOrder stZeroStock (some "u") inputOk true true).store = stZeroStock := by
  have hschema : createOrderSchemaParse inputOk =
      some ({ customerName := "Kim Gildong", address := "Seoul Mapo-gu 123",
              postalCode := "12345", addressDetail := none,
              phoneNumber := "01012345678" }, none) := by decide
  have hcart : getCartItems stZeroStock (some "u") =
      .ok [⟨2, "u", 1, 1, ⟨1, "P1", 100, 0, true⟩⟩] 100 := by
    norm_num [getCartItems, collectCart, lookupProduct, stZeroStock]
  have hval : validateCartItems [⟨2, "u", 1, 1, ⟨1, "P1", 100, 0, true⟩⟩] =
      .error (.insufficientStock "P1" 0 1) := by
    norm_num [validateCartItems]
  have hred : createOrder stZeroStock (some "u") inputOk true true =
      ⟨.error (.insufficientStock "P1" 0 1), stZeroStock⟩ := by
    simp only [createOrder, hschema, hcart, hval]
    norm_num
  rw [hred]
  exact ⟨rfl, fun n h => by simp at h, rfl⟩

/-- The out-of-stock branch of `createOrder`'s validation loop is dead code
for every cart whose line quantities are at least 1 (which all cart write
paths enforce): the preceding `quantity > stock` check already fires
whenever stock is zero. -/
theorem validateCartItems_outOfStock_unreachable (items : List CartItem)
    (hq : ∀ it ∈ items, 1 ≤ it.quantity) (n : String) :
    validateCartItems items ≠ .error (.outOfStock n) := by
  induction items with
  | nil => simp [validateCartItems]
  | cons item rest ih =>
    unfold validateCartItems
    by_cases h1 : item.products.is_active
    case neg => simp [h1]
    case pos =>
      by_cases h2 : item.quantity > item.products.stock_quantity
      case pos => simp [h1, h2]
      case neg =>
        have h3 : ¬(item.products.stock_quantity = 0) := by
          have hq1 := hq item (List.mem_cons_self item rest)
          intro h0
          rw [h0] at h2
          omega
        simp only [h1, h2, h3, Bool.not_true, Bool.false_eq_true, if_false,
          ite_false, beq_iff_eq]
        have hrest := ih fun it hit => hq it (List.mem_cons_of_mem item hit)
        cases hr : validateCartItems rest with
        | error e => simp only [hr]; simpa [hr] using hrest
        | ok pr =>
          obtain ⟨specs, total⟩ := pr
          simp [hr]

/-- C6 counterexample: a cart whose single line requests quantity 2 of an
active product with positive stock 1 passes every pre-gateway check of
`confirmPaymentAndCreateOrder` and the gateway IS invoked — no
insufficient-stock rejection happens before the external call. -/
theorem confirm_gateway_called_despite_insufficient_stock :
    getCartItems stShortStock (some "u") =
      .ok [⟨2, "u", 1, 2, ⟨1, "P1", 100, 1, true⟩⟩] 200 ∧
    (confirmPaymentAndCreateOrder stShortStock (some "u") "pay_1" "ord_1" 200
      none none "DONE" true true (fun _ => true) (fun _ => true) true).gatewayCalls
      = 1 := by
  have hcart : getCartItems stShortStock (some "u") =
      .ok [⟨2, "u", 1, 2, ⟨1, "P1", 100, 1, true⟩⟩] 200 := by
    norm_num [getCartItems, collectCart, lookupProduct, stShortStock]
  have hval : confirmValidate stShortStock "u" "pay_1" "ord_1" 200 none =
      .ok ([⟨2, "u", 1, 2, ⟨1, "P1", 100, 1, true⟩⟩], 200) := by
    norm_num [confirmValidate, hcart, confirmPaymentSchemaOk,
      show "pay_1".length = 5 from rfl, show "ord_1".length = 5 from rfl]
  have hred : confirmPaymentAndCreateOrder stShortStock (some "u") "pay_1"
      "ord_1" 200 none none "DONE" true true (fun _ => true) (fun _ => true) true
      = confirmPersist stShortStock "u" "pay_1"
          [⟨2, "u", 1, 2, ⟨1, "P1", 100, 1, true⟩⟩] 200 none none true true
          (fun _ => true) (fun _ => true) true := by
    simp only [confirmPaymentAndCreateOrder, hval, bne_self_eq_false,
      Bool.false_eq_true, if_false]
  exact ⟨hcart, by rw [hred, confirmPersist_gatewayCalls]⟩

/-- C6 amended: before the gateway call the payment flow checks only
schema validity, a non-empty (post-filter) cart, the amount match with
epsilon 0.01, and that no line's product has stock exactly zero.  Whenever
the gateway is reached those checks did pass, and every validated line's
product is active — inactive lines were silently dropped by
`getCartItems`, never rejected as an inactive product, and a line whose
quantity exceeds positive stock is not rejected at all. -/
theorem confirm_pre_gateway_checks_characterization (st : Store)
    (uid pk oid : String) (amt : Money) (addr : Option ShippingAddressInput)
    (note : Option String) (gw : String) (oIns iIns : Bool)
    (fOk uOk : Nat → Bool) (cOk : Bool)
    (hcalls : (confirmPaymentAndCreateOrder st (some uid) pk oid amt addr note
        gw oIns iIns fOk uOk cOk).gatewayCalls ≠ 0) :
    ∃ items total, getCartItems st (some uid) = .ok items total ∧
      items.isEmpty = false ∧
      confirmPaymentSchemaOk pk oid amt addr = true ∧
      |amt - total| ≤ 1/100 ∧
      (∀ item ∈ items, item.products.stock_quantity ≠ 0) ∧
      (∀ item ∈ items, item.products.is_active = true) := by
  cases hv : confirmValidate st uid pk oid amt addr with
  | error e =>
    have hred : confirmPaymentAndCreateOrder st (some uid) pk oid amt addr note
        gw oIns iIns fOk uOk cOk = ⟨.error e, st, 0⟩ := by
      simp only [confirmPaymentAndCreateOrder, hv]
    rw [hred] at hcalls
    exact absurd rfl hcalls
  | ok pr =>
    obtain ⟨items, total⟩ := pr
    obtain ⟨hschema, hcart, hne, hamt, hstock⟩ :=
      confirmValidate_ok_inv st uid pk oid amt addr items total hv
    refine ⟨items, total, hcart, hne, hschema, not_lt.mp hamt, ?_, ?_⟩
    · intro item hit h0
      have hmem : item ∈ items.filter fun it => it.products.stock_quantity == 0 :=
        List.mem_filter.mpr ⟨hit, by simp [h0]⟩
      rw [List.isEmpty_iff] at hstock
      rw [hstock] at hmem
      exact absurd hmem (List.not_mem_nil item)
    · intro item hit
      unfold getCartItems at hcart
      dsimp only at hcart
      rw [GetCartItemsResult.ok.injEq] at hcart
      rw [← hcart.1] at hit
      exact collectCart_active st _ item hit

/-- C6 witness: at the short-stock counter-input the gateway is reached,
and the characterization yields the concrete pre-gateway facts. -/
theorem confirm_pre_gateway_checks_witness :
    ∃ items total, getCartItems stShortStock (some "u") = .ok items total ∧
      items.isEmpty = false ∧
      confirmPaymentSchemaOk "pay_1" "ord_1" 200 none = true ∧
      |(200 : Money) - total| ≤ 1/100 ∧
      (∀ item ∈ items, item.products.stock_quantity ≠ 0) ∧
      (∀ item ∈ items, item.products.is_active = true) := by
  have hcart : getCartItems stShortStock (some "u") =
      .ok [⟨2, "u", 1, 2, ⟨1, "P1", 100, 1, true⟩⟩] 200 := by
    norm_num [getCartItems, collectCart, lookupProduct, stShortStock]
  have hval : confirmValidate stShortStock "u" "pay_1" "ord_1" 200 none =
      .ok ([⟨2, "u", 1, 2, ⟨1, "P1", 100, 1, true⟩⟩], 200) := by
    norm_num [confirmValidate, hcart, confirmPaymentSchemaOk,
      show "pay_1".length = 5 from rfl, show "ord_1".length = 5 from rfl]
  have hred : confirmPaymentAndCreateOrder stShortStock (some "u") "pay_1"
      "ord_1" 200 none none "DONE" true true (fun _ => true) (fun _ => true) true
      = confirmPersist stShortStock "u" "pay_1"
          [⟨2, "u", 1, 2, ⟨1, "P1", 100, 1, true⟩⟩] 200 none none true true
          (fun _ => true) (fun _ => true) true := by
    simp only [confirmPaymentAndCreateOrder, hval, bne_self_eq_false,
      Bool.false_eq_true, if_false]
  have hcalls : (confirmPaymentAndCreateOrder stShortStock (some "u") "pay_1"
      "ord_1" 200 none none "DONE" true true (fun _ => true) (fun _ => true)
      true).gatewayCalls ≠ 0 := by
    rw [hred, confirmPersist_gatewayCalls]
    exact one_ne_zero
  exact confirm_pre_gateway_checks_characterization stShortStock "u" "pay_1"
    "ord_1" 200 none none "DONE" true true (fun _ => true) (fun _ => true)
    true hcalls

/-- C7 counterexample: a line requesting quantity 2 of a product with
stock 1 leaves the stock at 1 after the decrement step — the step skips
the line instead of clamping the stock to `max 0 (1 - 2) = 0` as the
claim states. -/
theorem decrement_skips_instead_of_clamping :
    (decrementStockForItems stShortStock [⟨10, 1, "P1", 2, 100⟩]
        (fun _ => true) (fun _ => true)).products
      = [⟨1, "P1", 100, 1, true⟩] ∧
    ¬((1 : Int) = max 0 (1 - 2)) := by
  constructor
  · norm_num [decrementStockForItems, applyStockDecrement, lookupProduct,
      stShortStock]
  · decide

/-- C7 amended: in the stock-decrement step, a product's stock becomes
`previous stock - quantity` exactly when the per-line fetch succeeds, the
quantity is at most the current stock, and the update succeeds; in every
other case (insufficient stock, missing product, fetch or update failure)
the stock is left unchanged — not clamped to zero.  Consequently, stocks
that start non-negative stay non-negative through the whole step. -/
theorem decrement_per_line_effect_and_nonnegativity :
    (∀ (st : Store) (item : OrderItemRow) (fOk uOk : Nat → Bool) (p : Product),
      lookupProduct st item.product_id = some p →
      lookupProduct (applyStockDecrement st item fOk uOk) item.product_id =
        some (if fOk item.product_id && decide (item.quantity ≤ p.stock_quantity)
                 && uOk item.product_id
              then { p with stock_quantity := p.stock_quantity - item.quantity }
              else p)) ∧
    (∀ (st : Store) (items : List OrderItemRow) (fOk uOk : Nat → Bool),
      (∀ q ∈ st.products, 0 ≤ q.stock_quantity) →
      ∀ q ∈ (decrementStockForItems st items fOk uOk).products,
        0 ≤ q.stock_quantity) := by
  constructor
  · intro st item fOk uOk p hp
    by_cases hf : fOk item.product_id
    case neg =>
      simp only [applyStockDecrement, hf, Bool.not_false, if_true]
      rw [hp]
      simp [hf]
    case pos =>
      unfold applyStockDecrement
      simp only [hf, Bool.not_true, Bool.false_eq_true, if_false]
      rw [hp]
      dsimp only
      by_cases hneg : p.stock_quantity - item.quantity < 0
      · have hq : ¬(item.quantity ≤ p.stock_quantity) := by omega
        simp only [hneg, if_true]
        rw [hp]
        simp [hq]
      · have hq : item.quantity ≤ p.stock_quantity := by omega
        simp only [hneg, if_false]
        by_cases hu : uOk item.product_id
        · simp only [hu, Bool.not_true, Bool.false_eq_true, if_false]
          unfold lookupProduct
          dsimp only
          rw [List.find?_map]
          have hpred : ((fun (q : Product) => q.id == item.product_id) ∘
              (fun (q : Product) => if q.id == item.product_id
                then { q with stock_quantity := p.stock_quantity - item.quantity }
                else q)) = fun (q : Product) => q.id == item.product_id := by
            funext q
            by_cases hid : q.id = item.product_id
            · simp [hid]
            · simp [hid]
          rw [hpred]
          have hfind : st.products.find? (fun q => q.id == item.product_id)
              = some p := hp
          rw [hfind]
          have hid := List.find?_some hfind
          simp only [beq_iff_eq] at hid
          simp [hid, hf, hq, hu]
        · simp only [hu, Bool.not_false, if_true]
          rw [hp]
          simp [hu]
  · intro st items fOk uOk h
    induction items generalizing st with
    | nil => exact h
    | cons item rest ih =>
      exact ih (applyStockDecrement st item fOk uOk)
        (applyStockDecrement_nonneg st item fOk uOk h)

/-- C7 witness: the per-line effect evaluated on a product with stock 5 and
a line of quantity 2 (stock becomes 3), and the non-negativity of the step
on that same store. -/
theorem decrement_per_line_effect_witness :
    lookupProduct (applyStockDecrement stBase ⟨10, 1, "P1", 2, 100⟩
        (fun _ => true) (fun _ => true)) 1
      = some ⟨1, "P1", 100, 3, true⟩ ∧
    ∀ q ∈ (decrementStockForItems stBase [⟨10, 1, "P1", 2, 100⟩]
        (fun _ => true) (fun _ => true)).products, 0 ≤ q.stock_quantity := by
  constructor
  · have h := decrement_per_line_effect_and_nonnegativity.1 stBase
      ⟨10, 1, "P1", 2, 100⟩ (fun _ => true) (fun _ => true)
      ⟨1, "P1", 100, 5, true⟩ (by norm_num [lookupProduct, stBase])
    rw [h]
    norm_num
  · exact decrement_per_line_effect_and_nonnegativity.2 stBase
      [⟨10, 1, "P1", 2, 100⟩] (fun _ => true) (fun _ => true)
      (by intro q hq; simp [stBase] at hq; rw [hq]; norm_num)

/-- C8 counterexample: a cart holding an inactive line (price 50 × 1) and
an active line (price 100 × 2).  `getCartItems` totals only the active
line (200), which differs from the exact sum of `price × quantity` over
all lines (250): the claim's "over all lines" fails for carts containing
an inactive product. -/
theorem getCartItems_total_excludes_inactive_line :
    getCartItems stInactiveLine (some "u")
      = .ok [⟨4, "u", 2, 2, ⟨2, "B", 100, 5, true⟩⟩] 200 ∧
    specTotalAllLines stInactiveLine "u" = 250 ∧
    (200 : Money) ≠ 250 := by
  refine ⟨?_, ?_, by norm_num⟩
  · norm_num [getCartItems, collectCart, lookupProduct, stInactiveLine]
  · norm_num [specTotalAllLines, lookupProduct, stInactiveLine]

/-- C8 amended: for every cart, the total `getCartItems` returns equals the
exact sum of `unit price × quantity` over the lines whose product exists
and is active (lines with a missing or deactivated product are silently
excluded from both the returned items and the total); and whenever
`createOrder`'s independent re-validation loop succeeds on those items,
its recomputed total equals the same amount, so the two computations
always agree exactly. -/
theorem getCartItems_total_is_active_line_sum (st : Store) (uid : String)
    (items : List CartItem) (total : Money)
    (h : getCartItems st (some uid) = .ok items total) :
    total = specTotalActiveLines st uid ∧
    ∀ specs calcTotal, validateCartItems items = .ok (specs, calcTotal) →
      calcTotal = total := by
  unfold getCartItems at h
  dsimp only at h
  rw [GetCartItemsResult.ok.injEq] at h
  obtain ⟨h1, h2⟩ := h
  constructor
  · rw [← h2]
    unfold specTotalActiveLines
    exact collectCart_total st _
  · intro specs calcTotal hval
    rw [validateCartItems_total items specs calcTotal hval, ← h1,
      collectCart_items_sum, h2]

/-- C8 witness: on a concrete one-line cart (price 100 × 2) the returned
total is the active-line sum and the re-validation total agrees. -/
theorem getCartItems_total_witness :
    (200 : Money) = specTotalActiveLines stBase "u" ∧
    ∀ specs calcTotal,
      validateCartItems [⟨2, "u", 1, 2, ⟨1, "P1", 100, 5, true⟩⟩]
        = .ok (specs, calcTotal) →
      calcTotal = 200 :=
  getCartItems_total_is_active_line_sum stBase "u"
    [⟨2, "u", 1, 2, ⟨1, "P1", 100, 5, true⟩⟩] 200
    (by norm_num [getCartItems, collectCart, lookupProduct, stBase])

/-- C9: `cancelOrder` characterization.  When the owned order is found but
its status is not `pending`, the call is rejected with the invalid-state
error and the store is untouched.  With unique order ids and a succeeding
update, the call succeeds exactly when an order owned by the caller with
status `pending` and the given id exists.  On success, products, cart and
order lines are untouched and the only change is that order's status
becoming `cancelled` — no inventory or payment reversal. -/
theorem cancelOrder_pending_only (st : Store) (uid : String) (oid : Nat)
    (upOk : Bool) :
    (∀ o, st.orders.find? (fun o => o.id == oid && o.clerk_id == uid) = some o →
        o.status ≠ "pending" →
        (cancelOrder st (some uid) oid upOk).result = .error .invalidState ∧
        (cancelOrder st (some uid) oid upOk).store = st) ∧
    ((st.orders.map fun o => o.id).Nodup → upOk = true →
        ((cancelOrder st (some uid) oid upOk).result = .ok () ↔
          ∃ o ∈ st.orders, o.id = oid ∧ o.clerk_id = uid ∧ o.status = "pending")) ∧
    ((cancelOrder st (some uid) oid upOk).result = .ok () →
        (cancelOrder st (some uid) oid upOk).store.products = st.products ∧
        (cancelOrder st (some uid) oid upOk).store.cart_items = st.cart_items ∧
        (cancelOrder st (some uid) oid upOk).store.order_items = st.order_items ∧
        (cancelOrder st (some uid) oid upOk).store.orders
          = st.orders.map fun o =>
              if o.id == oid && o.clerk_id == uid then
                { o with status := "cancelled" } else o) := by
  cases hf : st.orders.find? (fun o => o.id == oid && o.clerk_id == uid) with
  | none =>
    have hred : cancelOrder st (some uid) oid upOk
        = ⟨.error .orderNotFound, st⟩ := by
      simp only [cancelOrder, hf]
    refine ⟨fun o ho => absurd ho (by simp), fun hnd hup => ?_,
      fun hok => ?_⟩
    · rw [hred]
      constructor
      · intro h; exact absurd h (by simp)
      · rintro ⟨o, ho, h1, h2, h3⟩
        rw [List.find?_eq_none] at hf
        exact absurd (show (o.id == oid && o.clerk_id == uid) = true by
          simp [h1, h2]) (hf o ho)
    · rw [hred] at hok
      exact absurd hok (by simp)
  | some o =>
    by_cases hs : o.status = "pending"
    case neg =>
      have hred : cancelOrder st (some uid) oid upOk
          = ⟨.error .invalidState, st⟩ := by
        simp only [cancelOrder, hf]
        rw [if_pos (bne_iff_ne.mpr hs)]
      refine ⟨fun o' ho' hne => by rw [hred]; exact ⟨rfl, rfl⟩,
        fun hnd hup => ?_, fun hok => ?_⟩
      · rw [hred]
        constructor
        · intro h; exact absurd h (by simp)
        · rintro ⟨o', ho', h1, h2, h3⟩
          have hpo := List.find?_some hf
          have hmo := List.mem_of_find?_eq_some hf
          simp only [Bool.and_eq_true, beq_iff_eq] at hpo
          have heq : o' = o :=
            List.inj_on_of_nodup_map hnd ho' hmo (by rw [h1, hpo.1])
          exact absurd (heq ▸ h3) hs
      · rw [hred] at hok
        exact absurd hok (by simp)
    case pos =>
      cases upOk with
      | false =>
        have hred : cancelOrder st (some uid) oid false
            = ⟨.error .updateFailed, st⟩ := by
          simp only [cancelOrder, hf]
          simp [hs]
        refine ⟨fun o' ho' hne => ?_, fun hnd hup => absurd hup (by simp),
          fun hok => ?_⟩
        · obtain rfl : o = o' := by injection ho'
          exact absurd hs hne
        · rw [hred] at hok
          exact absurd hok (by simp)
      | true =>
        have hred : cancelOrder st (some uid) oid true
            = ⟨.ok (), { st with orders := st.orders.map fun o =>
                if o.id == oid && o.clerk_id == uid then
                  { o with status := "cancelled" } else o }⟩ := by
          simp only [cancelOrder, hf]
          simp [hs]
        refine ⟨fun o' ho' hne => ?_, fun hnd hup => ?_, fun hok => ?_⟩
        · obtain rfl : o = o' := by injection ho'
          exact absurd hs hne
        · rw [hred]
          constructor
          · intro _
            have hpo := List.find?_some hf
            have hmo := List.mem_of_find?_eq_some hf
            simp only [Bool.and_eq_true, beq_iff_eq] at hpo
            exact ⟨o, hmo, hpo.1, hpo.2, hs⟩
          · intro _
            rfl
        · rw [hred]
          exact ⟨rfl, rfl, rfl, rfl⟩

/-- C9 witness: cancelling a pending owned order succeeds and only flips
that order's status; the characterization instantiated on a two-order
store. -/
theorem cancelOrder_pending_only_witness :
    ((cancelOrder
        ⟨[], [], [⟨5, "u", 100, "pending", none, none⟩,
                  ⟨6, "u", 250, "confirmed", none, none⟩], [], 10⟩
        (some "u") 5 true).result = .ok () ↔
      ∃ o ∈ [(⟨5, "u", 100, "pending", none, none⟩ : OrderRow),
             ⟨6, "u", 250, "confirmed", none, none⟩],
        o.id = 5 ∧ o.clerk_id = "u" ∧ o.status = "pending") ∧
    ((cancelOrder
        ⟨[], [], [⟨5, "u", 100, "pending", none, none⟩,
                  ⟨6, "u", 250, "confirmed", none, none⟩], [], 10⟩
        (some "u") 6 true).result = .error .invalidState ∧
     (cancelOrder
        ⟨[], [], [⟨5, "u", 100, "pending", none, none⟩,
                  ⟨6, "u", 250, "confirmed", none, none⟩], [], 10⟩
        (some "u") 6 true).store
       = ⟨[], [], [⟨5, "u", 100, "pending", none, none⟩,
                   ⟨6, "u", 250, "confirmed", none, none⟩], [], 10⟩) := by
  constructor
  · exact (cancelOrder_pending_only
      ⟨[], [], [⟨5, "u", 100, "pending", none, none⟩,
                ⟨6, "u", 250, "confirmed", none, none⟩], [], 10⟩
      "u" 5 true).2.1 (by simp) rfl
  · exact (cancelOrder_pending_only
      ⟨[], [], [⟨5, "u", 100, "pending", none, none⟩,
                ⟨6, "u", 250, "confirmed", none, none⟩], [], 10⟩
      "u" 6 true).1 ⟨6, "u", 250, "confirmed", none, none⟩ (by simp [List.find?])
      (by simp)

/-- C10: in `addToCart`, the stock check is applied to the combined
quantity (existing line quantity plus newly requested quantity, or just
the requested quantity with no existing line): if the combined quantity
exceeds current stock the call fails with the insufficient-stock error
carrying exactly that combined quantity, and the cart is unchanged;
otherwise (with the write succeeding) the line's quantity becomes exactly
the combined quantity, or a new line is created with the requested
quantity; and every successful call writes a quantity no greater than the
product's then-current stock. -/
theorem addToCart_combined_quantity_stock_check (st : Store) (uid : String)
    (pid : Nat) (q : Int) (wOk : Bool) (p : Product)
    (hp : lookupProduct st pid = some p)
    (hactive : p.is_active = true)
    (hq : 1 ≤ q) :
    (∀ e, st.cart_items.find?
          (fun r => r.clerk_id == uid && r.product_id == pid) = some e →
        e.quantity + q > p.stock_quantity →
        (addToCart st (some uid) pid q wOk).result
          = .error (.insufficientStock p.stock_quantity (e.quantity + q)) ∧
        (addToCart st (some uid) pid q wOk).store = st) ∧
    (∀ e, st.cart_items.find?
          (fun r => r.clerk_id == uid && r.product_id == pid) = some e →
        e.quantity + q ≤ p.stock_quantity → wOk = true →
        (addToCart st (some uid) pid q wOk).result = .ok (e.id, e.quantity + q) ∧
        (addToCart st (some uid) pid q wOk).store.cart_items
          = st.cart_items.map fun r =>
              if r.id == e.id && r.clerk_id == uid then
                { r with quantity := e.quantity + q } else r) ∧
    (st.cart_items.find?
          (fun r => r.clerk_id == uid && r.product_id == pid) = none →
        q ≤ p.stock_quantity → wOk = true →
        (addToCart st (some uid) pid q wOk).result = .ok (st.nextId, q) ∧
        (addToCart st (some uid) pid q wOk).store.cart_items
          = st.cart_items ++ [⟨st.nextId, uid, pid, q⟩]) ∧
    (∀ cid cq, (addToCart st (some uid) pid q wOk).result = .ok (cid, cq) →
        cq ≤ p.stock_quantity) := by
  have hq' : ¬(q < 1) := by omega
  refine ⟨?_, ?_, ?_, ?_⟩
  · intro e he hgt
    have hred : addToCart st (some uid) pid q wOk
        = ⟨.error (.insufficientStock p.stock_quantity (e.quantity + q)), st⟩ := by
      simp only [addToCart, hq', hp, hactive, he]
      simp [hgt]
    rw [hred]
    exact ⟨rfl, rfl⟩
  · intro e he hle hw
    have hred : addToCart st (some uid) pid q wOk
        = ⟨.ok (e.id, e.quantity + q),
           { st with cart_items := st.cart_items.map fun r =>
               if r.id == e.id && r.clerk_id == uid then
                 { r with quantity := e.quantity + q } else r }⟩ := by
      simp only [addToCart, hq', hp, hactive, he, hw]
      simp [not_lt.mpr hle]
    rw [hred]
    exact ⟨rfl, rfl⟩
  · intro hnone hle hw
    have hred : addToCart st (some uid) pid q wOk
        = ⟨.ok (st.nextId, q),
           { st with cart_items := st.cart_items ++ [⟨st.nextId, uid, pid, q⟩],
                     nextId := st.nextId + 1 }⟩ := by
      simp only [addToCart, hq', hp, hactive, hnone, hw]
      simp [not_lt.mpr hle]
    rw [hred]
    exact ⟨rfl, rfl⟩
  · intro cid cq hok
    cases hf : st.cart_items.find?
        (fun r => r.clerk_id == uid && r.product_id == pid) with
    | some e =>
      by_cases hgt : e.quantity + q > p.stock_quantity
      · have hred : addToCart st (some uid) pid q wOk
            = ⟨.error (.insufficientStock p.stock_quantity (e.quantity + q)), st⟩ := by
          simp only [addToCart, hq', hp, hactive, hf]
          simp [hgt]
        rw [hred] at hok
        exact absurd hok (by simp)
      · cases wOk with
        | false =>
          have hred : addToCart st (some uid) pid q false
              = ⟨.error .writeFailed, st⟩ := by
            simp only [addToCart, hq', hp, hactive, hf]
            simp [hgt]
          rw [hred] at hok
          exact absurd hok (by simp)
        | true =>
          have hred : addToCart st (some uid) pid q true
              = ⟨.ok (e.id, e.quantity + q),
                 { st with cart_items := st.cart_items.map fun r =>
                     if r.id == e.id && r.clerk_id == uid then
                       { r with quantity := e.quantity + q } else r }⟩ := by
            simp only [addToCart, hq', hp, hactive, hf]
            simp [hgt]
          rw [hred] at hok
          simp only [Except.ok.injEq, Prod.mk.injEq] at hok
          rw [← hok.2]
          omega
    | none =>
      by_cases hgt : q > p.stock_quantity
      · have hred : addToCart st (some uid) pid q wOk
            = ⟨.error (.insufficientStock p.stock_quantity q), st⟩ := by
          simp only [addToCart, hq', hp, hactive, hf]
          simp [hgt]
        rw [hred] at hok
        exact absurd hok (by simp)
      · cases wOk with
        | false =>
          have hred : addToCart st (some uid) pid q false
              = ⟨.error .writeFailed, st⟩ := by
            simp only [addToCart, hq', hp, hactive, hf]
            simp [hgt]
          rw [hred] at hok
          exact absurd hok (by simp)
        | true =>
          have hred : addToCart st (some uid) pid q true
              = ⟨.ok (st.nextId, q),
                 { st with
                     cart_items := st.cart_items ++ [⟨st.nextId, uid, pid, q⟩],
                     nextId := st.nextId + 1 }⟩ := by
            simp only [addToCart, hq', hp, hactive, hf]
            simp [hgt]
          rw [hred] at hok
          simp only [Except.ok.injEq, Prod.mk.injEq] at hok
          rw [← hok.2]
          omega

/-- C10 witness: adding 2 more of a product already in the cart with
quantity 2 and stock 5 updates the line to quantity 4; the written
quantity stays within stock. -/
theorem addToCart_combined_quantity_witness :
    (addToCart stBase (some "u") 1 2 true).result = .ok (2, 4) ∧
    (addToCart stBase (some "u") 1 2 true).store.cart_items
      = stBase.cart_items.map fun r =>
          if r.id == 2 && r.clerk_id == "u" then { r with quantity := 4 } else r := by
  have h := (addToCart_combined_quantity_stock_check stBase "u" 1 2 true
    ⟨1, "P1", 100, 5, true⟩ (by norm_num [lookupProduct, stBase]) rfl
    (by norm_num)).2.1 ⟨2, "u", 1, 2⟩ (by simp [stBase, List.find?])
    (by norm_num) rfl
  exact ⟨h.1, h.2⟩

end ShoppingMall

